import Mathlib

/-!
Verification of the Isilon volume provisioner workflow
(`k8s_isi_provisioner.go`) against its specification.

The Go program is embedded shallowly:

* the Isilon client and `os.MkdirAll` become a `Backend` record of
  result-returning functions;
* `glog` logging is dropped (it carries no data flow);
* a Go `panic` is modelled as a distinct `Outcome.crash` result, separate
  from an ordinary returned `error` (`Outcome.err`), since the spec
  distinguishes "returned as an error" from "process termination";
* each backend invocation is recorded in an ordered trace of `Call`s, so
  that ordering and absence-of-call properties can be stated;
* Go map iteration over `options.Parameters` is modelled by iterating an
  association list in list order.
-/

/-- Errors surfaced by the workflow.  `backend` wraps an error string coming
from the Isilon client or the OS; the other constructors mirror the
`errors.New` / `fmt.Errorf` / `controller.IgnoredError` values built in the
source.  `ignored` models `controller.IgnoredError{Reason: r}`. -/
inductive PErr where
  | backend (msg : String)
  | noStorageSize
  | invalidParameter (k : String)
  | identityNotFound
  | ignored (reason : String)
  deriving DecidableEq, Repr

/-- Whether an error is the distinguished ignorable condition
(`controller.IgnoredError`), as opposed to an ordinary error value. -/
def PErr.isIgnorable : PErr → Bool
  | .ignored _ => true
  | _ => false

/-- Result of a workflow call: a returned value, a returned error, or a Go
`panic` (process termination). -/
inductive Outcome (α : Type) where
  | ok (a : α)
  | err (e : PErr)
  | crash (msg : String)
  deriving DecidableEq, Repr

/-- Map over the success value of an `Outcome`. -/
def Outcome.map (f : α → β) : Outcome α → Outcome β
  | .ok a => .ok (f a)
  | .err e => .err e
  | .crash m => .crash m

/-- One backend (Isilon client or OS) invocation, recorded in call order. -/
inductive Call where
  | createVolume (name : String)
  | setQuotaSize (name : String) (size : Int)
  | exportVolume (name : String)
  | mkdirAll (path : String)
  | getQuota (name : String)
  | clearQuota (name : String)
  | unexport (name : String)
  | deleteVolume (name : String)
  deriving DecidableEq, Repr

/-- The Isilon client plus `os.MkdirAll`, as an abstract environment of
result-returning operations.  `getQuota` models goisilon `GetQuota`, which
returns a nil quota pointer exactly when it returns an error, so the error
case carries no quota value. -/
structure Backend where
  createVolume : String → Except String String
  setQuotaSize : String → Int → Except String Unit
  getQuota : String → Except String (Option String)
  clearQuota : String → Except String Unit
  exportVolume : String → Except String String
  unexport : String → Except String Unit
  deleteVolume : String → Except String Unit
  mkdirAll : String → Except String Unit

/-- The `isilonProvisioner` struct: identity tag, configured paths, server
name and the two policy flags. -/
structure IsilonProvisioner where
  identity : String
  volumeAccessPath : String
  volumePath : String
  serverName : String
  exportsEnable : Bool
  quotaEnable : Bool

/-- The slice of `controller.VolumeOptions` the workflow reads: PVC
namespace and name, the generated PV name, the requested storage size, the
storage-class parameters, and the fields copied verbatim into the PV. -/
structure VolumeOptions where
  pvcNamespace : String
  pvcName : String
  pvName : String
  pvcSize : Int
  parameters : List (String × String)
  reclaimPolicy : String
  accessModes : List String
  deriving DecidableEq, Repr

/-- The slice of `v1.PersistentVolume` the workflow writes or reads:
object name, annotations, capacity, mount options and the NFS source. -/
structure PersistentVolume where
  name : String
  annotations : List (String × String)
  capacity : Int
  mountOptions : List String
  nfsServer : String
  nfsPath : String
  reclaimPolicy : String
  accessModes : List String
  deriving DecidableEq, Repr

/-- Go `strings.Join(elems, sep)`. -/
def stringsJoin : List String → String → String
  | [], _ => ""
  | [s], _ => s
  | s :: rest, sep => s ++ sep ++ stringsJoin rest sep

/-- The VolumeNamer: `strings.Join([]string{pvcNamespace, pvcName, pvName}, "-")`. -/
def volName (pvcNamespace pvcName pvName : String) : String :=
  stringsJoin [pvcNamespace, pvcName, pvName] "-"

/-- Go `path.Join(a, b)` restricted to already-clean segments (the `Clean`
pass, which is the identity on the clean paths this program builds, is
omitted): empty elements are dropped, the rest joined with a slash. -/
def pathJoin (a b : String) : String :=
  if a = "" then b else if b = "" then a else a ++ "/" ++ b

/-- Go `strings.ToLower`, character-wise.  The keys compared in this program
are ASCII, where this agrees with Go's Unicode case mapping. -/
def stringsToLower (s : String) : String := ⟨s.data.map Char.toLower⟩

/-- The mount-option loop of `Provision`: each parameter key is lowered and
matched; `mountoptions` replaces the accumulated list with the
comma-separated split of the value, any other key aborts with
`invalid parameter: k`. -/
def getMountOptions : List (String × String) → List String → Except PErr (List String)
  | [], acc => .ok acc
  | (k, v) :: rest, _acc =>
    if stringsToLower k = "mountoptions" then getMountOptions rest (v.splitOn ",")
    else .error (.invalidParameter k)

/-- Final stage of `Provision`: validate the storage-class parameters and
assemble the `PersistentVolume` with the two annotations. -/
def provisionFinish (p : IsilonProvisioner) (options : VolumeOptions)
    (pvName pvPath : String) (t : List Call) :
    Outcome PersistentVolume × List Call :=
  match getMountOptions options.parameters [] with
  | .error e => (.err e, t)
  | .ok mo =>
    (.ok { name := options.pvName
           annotations := [("isilonProvisionerIdentity", p.identity),
                           ("isilonVolume", pvName)]
           capacity := options.pvcSize
           mountOptions := mo
           nfsServer := p.serverName
           nfsPath := pvPath
           reclaimPolicy := options.reclaimPolicy
           accessModes := options.accessModes }, t)

/-- Mount-path stage of `Provision`: `os.MkdirAll(path, 0777)`, failure
returned to the caller. -/
def provisionMkdir (p : IsilonProvisioner) (b : Backend) (options : VolumeOptions)
    (pvName pvPath : String) (t : List Call) :
    Outcome PersistentVolume × List Call :=
  match b.mkdirAll pvPath with
  | .error e => (.err (.backend e), t ++ [Call.mkdirAll pvPath])
  | .ok _ => provisionFinish p options pvName pvPath (t ++ [Call.mkdirAll pvPath])

/-- Export stage of `Provision`: when exports are enabled, `ExportVolume`
is called and a failure is a Go `panic(err)`. -/
def provisionExport (p : IsilonProvisioner) (b : Backend) (options : VolumeOptions)
    (pvName pvPath : String) (t : List Call) :
    Outcome PersistentVolume × List Call :=
  if p.exportsEnable then
    match b.exportVolume pvName with
    | .error e => (.crash e, t ++ [Call.exportVolume pvName])
    | .ok _ => provisionMkdir p b options pvName pvPath (t ++ [Call.exportVolume pvName])
  else provisionMkdir p b options pvName pvPath t

/-- Quota stage of `Provision`: with quotas enabled a non-positive request
fails with `No storage size requested and quotas enabled`; otherwise
`SetQuotaSize` is invoked and its result is only logged — the workflow
continues regardless of it. -/
def provisionQuota (p : IsilonProvisioner) (b : Backend) (options : VolumeOptions)
    (pvName pvPath : String) (t : List Call) :
    Outcome PersistentVolume × List Call :=
  if p.quotaEnable then
    if options.pvcSize ≤ 0 then (.err .noStorageSize, t)
    else provisionExport p b options pvName pvPath (t ++ [Call.setQuotaSize pvName options.pvcSize])
  else provisionExport p b options pvName pvPath t

/-- `Provision`: name the volume, compute the mount path, create the backend
volume (failure returned unmodified), then run the quota, export, mkdir and
parameter-validation stages and assemble the PV. -/
def provision (p : IsilonProvisioner) (b : Backend) (options : VolumeOptions) :
    Outcome PersistentVolume × List Call :=
  let pvName := volName options.pvcNamespace options.pvcName options.pvName
  let pvPath := pathJoin p.volumePath pvName
  match b.createVolume pvName with
  | .error e => (.err (.backend e), [Call.createVolume pvName])
  | .ok _ => provisionQuota p b options pvName pvPath [Call.createVolume pvName]

/-- Last stage of `Delete`: `DeleteVolume`, failure is a Go `panic(err)`. -/
def deleteVolumeStep (b : Backend) (isiVolume : String) (t : List Call) :
    Outcome Unit × List Call :=
  match b.deleteVolume isiVolume with
  | .error e => (.crash e, t ++ [Call.deleteVolume isiVolume])
  | .ok _ => (.ok (), t ++ [Call.deleteVolume isiVolume])

/-- Export stage of `Delete`: with exports enabled, `Unexport`, failure is a
Go `panic(err)`. -/
def deleteExportStep (p : IsilonProvisioner) (b : Backend) (isiVolume : String)
    (t : List Call) : Outcome Unit × List Call :=
  if p.exportsEnable then
    match b.unexport isiVolume with
    | .error e => (.crash e, t ++ [Call.unexport isiVolume])
    | .ok _ => deleteVolumeStep b isiVolume (t ++ [Call.unexport isiVolume])
  else deleteVolumeStep b isiVolume t

/-- Quota stage of `Delete`: with quotas enabled, `quota, _ := GetQuota(...)`
discards the error (leaving a nil quota on failure); a present quota is
cleared with `ClearQuota`, whose failure is a Go `panic(err)`. -/
def deleteQuotaStep (p : IsilonProvisioner) (b : Backend) (isiVolume : String)
    (t : List Call) : Outcome Unit × List Call :=
  if p.quotaEnable then
    let quota : Option String :=
      match b.getQuota isiVolume with
      | .error _ => none
      | .ok q => q
    match quota with
    | none => deleteExportStep p b isiVolume (t ++ [Call.getQuota isiVolume])
    | some _ =>
      match b.clearQuota isiVolume with
      | .error e => (.crash e, t ++ [Call.getQuota isiVolume, Call.clearQuota isiVolume])
      | .ok _ =>
        deleteExportStep p b isiVolume (t ++ [Call.getQuota isiVolume, Call.clearQuota isiVolume])
  else deleteExportStep p b isiVolume t

/-- `Delete`: check the identity annotation (absent → plain error, mismatch →
`IgnoredError`), check the volume annotation (absent → `IgnoredError`),
then tear down quota, export and volume in that order. -/
def delete (p : IsilonProvisioner) (b : Backend) (volume : PersistentVolume) :
    Outcome Unit × List Call :=
  match volume.annotations.lookup "isilonProvisionerIdentity" with
  | none => (.err .identityNotFound, [])
  | some ann =>
    if ann ≠ p.identity then
      (.err (.ignored "identity annotation on PV does not match ours"), [])
    else
      match volume.annotations.lookup "isilonVolume" with
      | none => (.err (.ignored "No isilon volume defined"), [])
      | some isiVolume => deleteQuotaStep p b isiVolume []

/-! Concrete fixtures used by the closed theorems and witnesses. -/

/-- A backend on which every operation succeeds and no volume has a quota. -/
def okBackend : Backend where
  createVolume := fun n => .ok n
  setQuotaSize := fun _ _ => .ok ()
  getQuota := fun _ => .ok none
  clearQuota := fun _ => .ok ()
  exportVolume := fun n => .ok n
  unexport := fun _ => .ok ()
  deleteVolume := fun _ => .ok ()
  mkdirAll := fun _ => .ok ()

/-- A backend that succeeds everywhere and reports a quota on every volume. -/
def quotaBackend : Backend :=
  { okBackend with getQuota := fun _ => .ok (some "q") }

/-- A provisioner with both policy flags disabled. -/
def p0 : IsilonProvisioner where
  identity := "server-x"
  volumeAccessPath := "/ifs/data"
  volumePath := "/ifs/data"
  serverName := "server-x"
  exportsEnable := false
  quotaEnable := false

/-- The provisioner with exports enabled. -/
def pExports : IsilonProvisioner := { p0 with exportsEnable := true }

/-- The provisioner with quotas enabled. -/
def pQuota : IsilonProvisioner := { p0 with quotaEnable := true }

/-- The provisioner with both exports and quotas enabled. -/
def pBoth : IsilonProvisioner := { p0 with exportsEnable := true, quotaEnable := true }

/-- The request of end-to-end scenario 1. -/
def opts8 : VolumeOptions where
  pvcNamespace := "team-a"
  pvcName := "claim1"
  pvName := "pv-0001"
  pvcSize := 0
  parameters := []
  reclaimPolicy := "Delete"
  accessModes := ["ReadWriteMany"]

/-- A PV owned by `p0` (identity `server-x`) with a backend volume name. -/
def vol0 : PersistentVolume where
  name := "pv-0001"
  annotations := [("isilonProvisionerIdentity", "server-x"),
                  ("isilonVolume", "team-a-claim1-pv-0001")]
  capacity := 0
  mountOptions := []
  nfsServer := "server-x"
  nfsPath := "/ifs/data/team-a-claim1-pv-0001"
  reclaimPolicy := "Delete"
  accessModes := ["ReadWriteMany"]

/-- `vol0` without any annotations: no ownership tag at all. -/
def volNoTag : PersistentVolume := { vol0 with annotations := [] }

/-! Helper lemmas about the deletion stages. -/

/-- The volume-delete stage always appends exactly the `DeleteVolume` call,
whether it panics or succeeds. -/
theorem deleteVolumeStep_snd (b : Backend) (v : String) (t : List Call) :
    (deleteVolumeStep b v t).snd = t ++ [Call.deleteVolume v] := by
  unfold deleteVolumeStep
  split <;> rfl

/-- With exports enabled and `Unexport` succeeding, the export stage records
the `Unexport` call and then the `DeleteVolume` call. -/
theorem deleteExportStep_snd_of_ok (p : IsilonProvisioner) (b : Backend) (v : String)
    (t : List Call) (he : p.exportsEnable = true) (hux : b.unexport v = .ok ()) :
    (deleteExportStep p b v t).snd = t ++ [Call.unexport v, Call.deleteVolume v] := by
  unfold deleteExportStep
  rw [he, hux]
  simp [deleteVolumeStep_snd]

/-- Every call recorded by the export-and-later stages of deletion is either
already in the incoming trace, an `Unexport`, or a `DeleteVolume`. -/
theorem deleteExportStep_snd_mem (p : IsilonProvisioner) (b : Backend) (v : String)
    (t : List Call) (c : Call) (hc : c ∈ (deleteExportStep p b v t).snd) :
    c ∈ t ∨ c = Call.unexport v ∨ c = Call.deleteVolume v := by
  unfold deleteExportStep deleteVolumeStep at hc
  split at hc
  · split at hc
    · simp at hc
      tauto
    · split at hc <;> simp at hc <;> tauto
  · split at hc <;> simp at hc <;> tauto

/-- C1: the spec requires every destructive-path backend failure (export
failure during `Provision`; quota-clear, unexport or volume-delete failure
during `Delete`) to be returned to the caller as an error.  The code instead
calls `panic(err)` at all four places: each failure evaluates to a process
`crash`, not an `err`. -/
theorem C1_destructive_failures_crash :
    (provision pExports { okBackend with exportVolume := fun _ => .error "export failed" }
        opts8).fst = Outcome.crash "export failed" ∧
    (delete pQuota { quotaBackend with clearQuota := fun _ => .error "clear failed" }
        vol0).fst = Outcome.crash "clear failed" ∧
    (delete pExports { okBackend with unexport := fun _ => .error "unexport failed" }
        vol0).fst = Outcome.crash "unexport failed" ∧
    (delete p0 { okBackend with deleteVolume := fun _ => .error "delete failed" }
        vol0).fst = Outcome.crash "delete failed" := by
  refine ⟨by decide, by decide, by decide, by decide⟩

/-- C2, counterexample: on an owned record with both policies enabled and a
quota present, the recorded backend order is `GetQuota, ClearQuota, Unexport,
DeleteVolume` — quota teardown strictly before unexport — not the
`Unexport, ClearQuota, DeleteVolume` order the claim states. -/
theorem C2_counterexample :
    (delete pBoth quotaBackend vol0).snd
      = [Call.getQuota "team-a-claim1-pv-0001", Call.clearQuota "team-a-claim1-pv-0001",
         Call.unexport "team-a-claim1-pv-0001", Call.deleteVolume "team-a-claim1-pv-0001"] ∧
    (delete pBoth quotaBackend vol0).snd
      ≠ [Call.getQuota "team-a-claim1-pv-0001", Call.unexport "team-a-claim1-pv-0001",
         Call.clearQuota "team-a-claim1-pv-0001", Call.deleteVolume "team-a-claim1-pv-0001"] := by
  refine ⟨by decide, by decide⟩

/-- C2, amended: on every owned record with export and quota policies
enabled, a present quota, and successful quota-clear and unexport calls, the
backend teardown order is: `ClearQuota` first, `Unexport` second,
`DeleteVolume` last (after the initial `GetQuota` query). -/
theorem C2_teardown_order (p : IsilonProvisioner) (b : Backend) (vol : PersistentVolume)
    (v q : String)
    (hq : p.quotaEnable = true) (he : p.exportsEnable = true)
    (hid : vol.annotations.lookup "isilonProvisionerIdentity" = some p.identity)
    (hv : vol.annotations.lookup "isilonVolume" = some v)
    (hgq : b.getQuota v = .ok (some q))
    (hcq : b.clearQuota v = .ok ())
    (hux : b.unexport v = .ok ()) :
    (delete p b vol).snd
      = [Call.getQuota v, Call.clearQuota v, Call.unexport v, Call.deleteVolume v] := by
  unfold delete
  rw [hid, hv]
  simp only [ne_eq, not_true_eq_false, if_false, ite_false]
  unfold deleteQuotaStep
  rw [hq, hgq, hcq]
  simpa using deleteExportStep_snd_of_ok p b v
    [Call.getQuota v, Call.clearQuota v] he hux

/-- C2, amended, witness: the order at the concrete fixture. -/
theorem C2_teardown_order_witness :
    (delete pBoth quotaBackend vol0).snd
      = [Call.getQuota "team-a-claim1-pv-0001", Call.clearQuota "team-a-claim1-pv-0001",
         Call.unexport "team-a-claim1-pv-0001", Call.deleteVolume "team-a-claim1-pv-0001"] :=
  C2_teardown_order pBoth quotaBackend vol0 "team-a-claim1-pv-0001" "q"
    rfl rfl rfl rfl rfl rfl rfl

/-- C3, counterexample: deleting a record that carries no ownership tag
returns the plain error `identity annotation not found on PV`, which is not
the ignorable (`IgnoredError`) condition the claim requires; no backend call
is made. -/
theorem C3_counterexample :
    delete p0 okBackend volNoTag = (.err .identityNotFound, []) ∧
    PErr.identityNotFound.isIgnorable = false := by
  refine ⟨by decide, rfl⟩

/-- C3, amended: a record with no ownership tag makes `Delete` return a
plain, non-ignorable error with no backend calls; a record whose tag differs
from the active identity makes it return the ignorable condition, also with
no backend calls. -/
theorem C3_ownership_gate (p : IsilonProvisioner) (b : Backend) (vol : PersistentVolume) :
    (vol.annotations.lookup "isilonProvisionerIdentity" = none →
      delete p b vol = (.err .identityNotFound, []) ∧
      PErr.identityNotFound.isIgnorable = false) ∧
    (∀ a, vol.annotations.lookup "isilonProvisionerIdentity" = some a → a ≠ p.identity →
      delete p b vol = (.err (.ignored "identity annotation on PV does not match ours"), []) ∧
      (PErr.ignored "identity annotation on PV does not match ours").isIgnorable = true) := by
  constructor
  · intro h
    unfold delete
    rw [h]
    exact ⟨rfl, rfl⟩
  · intro a ha hne
    unfold delete
    rw [ha]
    refine ⟨?_, rfl⟩
    simp [hne]

/-- C3, amended, witness: a record owned by `server-x` deleted by a
provisioner whose identity is `server-y`. -/
theorem C3_ownership_gate_witness :
    delete { p0 with identity := "server-y" } okBackend vol0
      = (.err (.ignored "identity annotation on PV does not match ours"), []) ∧
    (PErr.ignored "identity annotation on PV does not match ours").isIgnorable = true :=
  (C3_ownership_gate { p0 with identity := "server-y" } okBackend vol0).2 "server-x"
    rfl (by decide)

/-! Reduction helpers for the provisioning stages. -/

/-- When `CreateVolume` succeeds, `Provision` reduces to the quota stage with
the creation call recorded. -/
theorem provision_eq_of_ok (p : IsilonProvisioner) (b : Backend) (options : VolumeOptions)
    (rc : String)
    (hc : b.createVolume (volName options.pvcNamespace options.pvcName options.pvName)
      = .ok rc) :
    provision p b options
      = provisionQuota p b options (volName options.pvcNamespace options.pvcName options.pvName)
          (pathJoin p.volumePath (volName options.pvcNamespace options.pvcName options.pvName))
          [Call.createVolume (volName options.pvcNamespace options.pvcName options.pvName)] := by
  unfold provision
  simp only [hc]

/-- With quotas enabled and a positive requested size, the quota stage
records the `SetQuotaSize` call and moves on to the export stage — whatever
the result of the quota call was. -/
theorem provisionQuota_eq_of_pos (p : IsilonProvisioner) (b : Backend)
    (options : VolumeOptions) (nm pvPath : String) (t : List Call)
    (hq : p.quotaEnable = true) (hs : 0 < options.pvcSize) :
    provisionQuota p b options nm pvPath t
      = provisionExport p b options nm pvPath (t ++ [Call.setQuotaSize nm options.pvcSize]) := by
  unfold provisionQuota
  rw [hq, if_neg (not_le.mpr hs)]
  simp

/-- C4: with quotas enabled and a requested capacity of zero, provisioning
(once the volume-creation call has succeeded) fails with the policy-violation
error `No storage size requested and quotas enabled`, and no `SetQuotaSize`
call is made. -/
theorem C4_quota_zero_size (p : IsilonProvisioner) (b : Backend) (options : VolumeOptions)
    (rc : String)
    (hq : p.quotaEnable = true) (hs : options.pvcSize = 0)
    (hc : b.createVolume (volName options.pvcNamespace options.pvcName options.pvName)
      = .ok rc) :
    (provision p b options).fst = .err .noStorageSize ∧
    ∀ n s, Call.setQuotaSize n s ∉ (provision p b options).snd := by
  rw [provision_eq_of_ok p b options rc hc]
  unfold provisionQuota
  rw [hq, if_pos (le_of_eq hs)]
  simp

/-- C4, witness: scenario-1 request (size 0) against a quota-enabled
provisioner. -/
theorem C4_quota_zero_size_witness :
    (provision pQuota okBackend opts8).fst = .err .noStorageSize ∧
    ∀ n s, Call.setQuotaSize n s ∉ (provision pQuota okBackend opts8).snd :=
  C4_quota_zero_size pQuota okBackend opts8 "team-a-claim1-pv-0001" rfl rfl rfl

/-- C5: with quotas enabled and a positive requested size, a failing
`SetQuotaSize` call is not propagated: provisioning continues (here with
exports disabled, a successful volume creation and directory creation, and
no storage-class parameters) and still returns the fully assembled
`PersistentVolume`, quota-less, with the `SetQuotaSize` call on record. -/
theorem C5_quota_failure_not_propagated (p : IsilonProvisioner) (b : Backend)
    (options : VolumeOptions) (rc e : String)
    (hq : p.quotaEnable = true) (hs : 0 < options.pvcSize)
    (hc : b.createVolume (volName options.pvcNamespace options.pvcName options.pvName)
      = .ok rc)
    (hqf : b.setQuotaSize (volName options.pvcNamespace options.pvcName options.pvName)
      options.pvcSize = .error e)
    (hx : p.exportsEnable = false)
    (hm : b.mkdirAll (pathJoin p.volumePath
      (volName options.pvcNamespace options.pvcName options.pvName)) = .ok ())
    (hp : options.parameters = []) :
    provision p b options
      = (.ok { name := options.pvName
               annotations := [("isilonProvisionerIdentity", p.identity),
                               ("isilonVolume",
                                volName options.pvcNamespace options.pvcName options.pvName)]
               capacity := options.pvcSize
               mountOptions := []
               nfsServer := p.serverName
               nfsPath := pathJoin p.volumePath
                 (volName options.pvcNamespace options.pvcName options.pvName)
               reclaimPolicy := options.reclaimPolicy
               accessModes := options.accessModes },
         [Call.createVolume (volName options.pvcNamespace options.pvcName options.pvName),
          Call.setQuotaSize (volName options.pvcNamespace options.pvcName options.pvName)
            options.pvcSize,
          Call.mkdirAll (pathJoin p.volumePath
            (volName options.pvcNamespace options.pvcName options.pvName))]) := by
  rw [provision_eq_of_ok p b options rc hc,
    provisionQuota_eq_of_pos p b options _ _ _ hq hs]
  unfold provisionExport
  rw [hx]
  simp only [Bool.false_eq_true, if_false, ite_false]
  unfold provisionMkdir
  rw [hm]
  unfold provisionFinish
  rw [hp]
  simp [getMountOptions]

/-- C5, witness: scenario-1 request with size 1 against a quota-enabled
provisioner whose backend rejects the quota call. -/
theorem C5_quota_failure_not_propagated_witness :
    provision pQuota
        { okBackend with setQuotaSize := fun _ _ => .error "quota failed" }
        { opts8 with pvcSize := 1 }
      = (.ok { name := "pv-0001"
               annotations := [("isilonProvisionerIdentity", "server-x"),
                               ("isilonVolume", "team-a-claim1-pv-0001")]
               capacity := 1
               mountOptions := []
               nfsServer := "server-x"
               nfsPath := "/ifs/data/team-a-claim1-pv-0001"
               reclaimPolicy := "Delete"
               accessModes := ["ReadWriteMany"] },
         [Call.createVolume "team-a-claim1-pv-0001",
          Call.setQuotaSize "team-a-claim1-pv-0001" 1,
          Call.mkdirAll "/ifs/data/team-a-claim1-pv-0001"]) :=
  C5_quota_failure_not_propagated pQuota
    { okBackend with setQuotaSize := fun _ _ => .error "quota failed" }
    { opts8 with pvcSize := 1 } "team-a-claim1-pv-0001" "quota failed"
    rfl (by decide) rfl rfl rfl rfl rfl

/-! Invalid storage-class parameters. -/

/-- If some parameter key lowers to something other than `mountoptions`, the
parameter loop ends in an `invalid parameter` error. -/
theorem getMountOptions_invalid (ps : List (String × String)) (acc : List String)
    (h : ∃ kv ∈ ps, stringsToLower kv.fst ≠ "mountoptions") :
    ∃ k, getMountOptions ps acc = .error (.invalidParameter k) := by
  induction ps generalizing acc with
  | nil => simp at h
  | cons kv rest ih =>
    obtain ⟨kv', hmem, hbad⟩ := h
    obtain ⟨k, v⟩ := kv
    unfold getMountOptions
    by_cases hk : stringsToLower k = "mountoptions"
    · rw [if_pos hk]
      apply ih
      rcases List.mem_cons.mp hmem with h1 | h1
      · exact absurd hk (by simpa [h1] using hbad)
      · exact ⟨kv', h1, hbad⟩
    · exact ⟨k, by rw [if_neg hk]⟩

/-- On a bad parameter list, the final stage fails with an `invalid
parameter` error and leaves the trace unchanged. -/
theorem provisionFinish_invalid (p : IsilonProvisioner) (options : VolumeOptions)
    (nm pvPath : String) (t : List Call)
    (h : ∃ kv ∈ options.parameters, stringsToLower kv.fst ≠ "mountoptions") :
    ∃ k, provisionFinish p options nm pvPath t = (.err (.invalidParameter k), t) := by
  obtain ⟨k, hk⟩ := getMountOptions_invalid options.parameters [] h
  exact ⟨k, by unfold provisionFinish; rw [hk]⟩

/-- On a bad parameter list, with the directory creation and (when enabled)
the export call succeeding, the export-and-later stages fail with an
`invalid parameter` error and only record export and mkdir calls. -/
theorem provisionExport_invalid (p : IsilonProvisioner) (b : Backend)
    (options : VolumeOptions) (nm pvPath : String) (t : List Call)
    (h : ∃ kv ∈ options.parameters, stringsToLower kv.fst ≠ "mountoptions")
    (hx : p.exportsEnable = true → ∃ eh, b.exportVolume nm = .ok eh)
    (hm : b.mkdirAll pvPath = .ok ()) :
    ∃ k tr, provisionExport p b options nm pvPath t = (.err (.invalidParameter k), tr) ∧
      ∀ c ∈ tr, c ∈ t ∨ c = Call.exportVolume nm ∨ c = Call.mkdirAll pvPath := by
  unfold provisionExport
  cases hxe : p.exportsEnable with
  | false =>
    simp only [Bool.false_eq_true, if_false, ite_false]
    unfold provisionMkdir
    rw [hm]
    obtain ⟨k, hk⟩ := provisionFinish_invalid p options nm pvPath (t ++ [Call.mkdirAll pvPath]) h
    refine ⟨k, t ++ [Call.mkdirAll pvPath], hk, ?_⟩
    intro c hc
    simp at hc
    tauto
  | true =>
    obtain ⟨eh, hex⟩ := hx hxe
    simp only [if_true, ite_true]
    rw [hex]
    unfold provisionMkdir
    rw [hm]
    obtain ⟨k, hk⟩ := provisionFinish_invalid p options nm pvPath
      (t ++ [Call.exportVolume nm] ++ [Call.mkdirAll pvPath]) h
    refine ⟨k, t ++ [Call.exportVolume nm] ++ [Call.mkdirAll pvPath], hk, ?_⟩
    intro c hc
    simp at hc
    tauto

/-- C6, counterexample: the claim quantifies over all quota and export
settings, but with quotas enabled and a zero requested size the quota gate
fires first: the same `foo` parameter yields the policy-violation error
`No storage size requested and quotas enabled`, not a parameter-validation
error. -/
theorem C6_counterexample :
    (provision pQuota okBackend { opts8 with parameters := [("foo", "bar")] }).fst
      = .err .noStorageSize ∧
    ∀ k, (provision pQuota okBackend { opts8 with parameters := [("foo", "bar")] }).fst
      ≠ .err (.invalidParameter k) := by
  refine ⟨by decide, ?_⟩
  intro k
  have h : (provision pQuota okBackend { opts8 with parameters := [("foo", "bar")] }).fst
      = .err .noStorageSize := by decide
  rw [h]
  simp

/-- C6, amended: whenever a storage-class parameter key other than
`mountOptions` is present and the earlier stages themselves do not fail
(volume creation succeeds, the quota gate passes — quotas disabled or a
positive size —, the export call succeeds when exports are enabled, and the
directory creation succeeds), provisioning fails with a parameter-validation
error, for every combination of the quota and export flags, and performs no
rollback: no `DeleteVolume` call appears in the trace. -/
theorem C6_invalid_parameter (p : IsilonProvisioner) (b : Backend)
    (options : VolumeOptions) (rc : String)
    (hbad : ∃ kv ∈ options.parameters, stringsToLower kv.fst ≠ "mountoptions")
    (hc : b.createVolume (volName options.pvcNamespace options.pvcName options.pvName)
      = .ok rc)
    (hqs : p.quotaEnable = true → 0 < options.pvcSize)
    (hx : p.exportsEnable = true →
      ∃ eh, b.exportVolume (volName options.pvcNamespace options.pvcName options.pvName)
        = .ok eh)
    (hm : b.mkdirAll (pathJoin p.volumePath
      (volName options.pvcNamespace options.pvcName options.pvName)) = .ok ()) :
    (∃ k, (provision p b options).fst = .err (.invalidParameter k)) ∧
    ∀ n, Call.deleteVolume n ∉ (provision p b options).snd := by
  rw [provision_eq_of_ok p b options rc hc]
  cases hqe : p.quotaEnable with
  | false =>
    unfold provisionQuota
    rw [hqe]
    simp only [Bool.false_eq_true, if_false, ite_false]
    obtain ⟨k, tr, htr, hsub⟩ := provisionExport_invalid p b options _ _
      [Call.createVolume (volName options.pvcNamespace options.pvcName options.pvName)]
      hbad hx hm
    rw [htr]
    refine ⟨⟨k, rfl⟩, ?_⟩
    intro n hn
    rcases hsub _ hn with h1 | h1 | h1 <;> simp_all
  | true =>
    rw [provisionQuota_eq_of_pos p b options _ _ _ hqe (hqs hqe)]
    obtain ⟨k, tr, htr, hsub⟩ := provisionExport_invalid p b options _ _
      ([Call.createVolume (volName options.pvcNamespace options.pvcName options.pvName)]
        ++ [Call.setQuotaSize (volName options.pvcNamespace options.pvcName options.pvName)
              options.pvcSize])
      hbad hx hm
    rw [htr]
    refine ⟨⟨k, rfl⟩, ?_⟩
    intro n hn
    rcases hsub _ hn with h1 | h1 | h1 <;> simp_all

/-- C6, amended, witness: a `foo` parameter with quotas off and exports off. -/
theorem C6_invalid_parameter_witness :
    (∃ k, (provision p0 okBackend { opts8 with parameters := [("foo", "bar")] }).fst
      = .err (.invalidParameter k)) ∧
    ∀ n, Call.deleteVolume n
      ∉ (provision p0 okBackend { opts8 with parameters := [("foo", "bar")] }).snd :=
  C6_invalid_parameter p0 okBackend { opts8 with parameters := [("foo", "bar")] }
    "team-a-claim1-pv-0001" ⟨("foo", "bar"), by decide, by decide⟩ rfl
    (fun h => by simp [p0] at h) (fun h => by simp [p0] at h) rfl

/-! The volume namer. -/

/-- Strings with equal character data are equal. -/
theorem stringDataInj (a b : String) (h : a.data = b.data) : a = b := by
  cases a
  cases b
  exact congrArg String.mk h

/-- Cancellation around the first separator: if neither prefix contains the
separator character, a separated concatenation determines both sides. -/
theorem hyphen_append_cancel (as : List Char) : ∀ (as' bs bs' : List Char),
    '-' ∉ as → '-' ∉ as' → as ++ '-' :: bs = as' ++ '-' :: bs' →
    as = as' ∧ bs = bs' := by
  induction as with
  | nil =>
    intro as' bs bs' _ ha' h
    cases as' with
    | nil =>
      simp only [List.nil_append] at h
      exact ⟨rfl, (List.cons.injEq .. ▸ h).2⟩
    | cons c t =>
      rw [List.nil_append, List.cons_append] at h
      injection h with h1 h2
      subst h1
      exact absurd (List.mem_cons_self _ _) ha'
  | cons a t ih =>
    intro as' bs bs' ha ha' h
    cases as' with
    | nil =>
      rw [List.cons_append, List.nil_append] at h
      injection h with h1 h2
      subst h1
      exact absurd (List.mem_cons_self _ _) ha
    | cons c t' =>
      rw [List.cons_append, List.cons_append] at h
      injection h with h1 h2
      have ht : '-' ∉ t := fun hm => ha (List.mem_cons_of_mem _ hm)
      have ht' : '-' ∉ t' := fun hm => ha' (List.mem_cons_of_mem _ hm)
      obtain ⟨h3, h4⟩ := ih t' bs bs' ht ht' h2
      subst h1
      subst h3
      exact ⟨rfl, h4⟩

/-- The character data of a generated volume name: the three fields joined
by a hyphen. -/
theorem volName_data (a b c : String) :
    (volName a b c).data = a.data ++ '-' :: (b.data ++ '-' :: c.data) := by
  simp [volName, stringsJoin, String.data_append, show ("-" : String).data = ['-'] from rfl]

/-- C7, counterexample: the namer is not injective on the full input space —
a hyphen inside a field shifts the boundary, so two requests differing in
namespace and claim name produce the same backend volume name. -/
theorem C7_counterexample :
    volName "a-b" "c" "d" = volName "a" "b-c" "d" ∧
    (("a-b", "c", "d") : String × String × String) ≠ ("a", "b-c", "d") := by
  refine ⟨by decide, by decide⟩

/-- C7, amended: the namer is deterministic — equal triples give equal names
(right-to-left direction) — and injective whenever the namespace and claim
name fields contain no hyphen (the separator): under that restriction, equal
names force equal triples. -/
theorem C7_volName_deterministic_inj (a b c a' b' c' : String)
    (ha : '-' ∉ a.data) (hb : '-' ∉ b.data)
    (ha' : '-' ∉ a'.data) (hb' : '-' ∉ b'.data) :
    volName a b c = volName a' b' c' ↔ (a = a' ∧ b = b' ∧ c = c') := by
  constructor
  · intro h
    have hd := congrArg String.data h
    rw [volName_data, volName_data] at hd
    obtain ⟨h1, h2⟩ := hyphen_append_cancel a.data a'.data _ _ ha ha' hd
    obtain ⟨h3, h4⟩ := hyphen_append_cancel b.data b'.data _ _ hb hb' h2
    exact ⟨stringDataInj _ _ h1, stringDataInj _ _ h3, stringDataInj _ _ h4⟩
  · rintro ⟨rfl, rfl, rfl⟩
    rfl

/-- C7, amended, witness: determinism and injectivity at a concrete
hyphen-free triple. -/
theorem C7_volName_deterministic_inj_witness :
    ("ns" : String) = "ns" ∧ ("claim1" : String) = "claim1" ∧ ("pv0" : String) = "pv0" :=
  (C7_volName_deterministic_inj "ns" "claim1" "pv0" "ns" "claim1" "pv0"
    (by decide) (by decide) (by decide) (by decide)).mp rfl

/-! End-to-end scenario 1 and deletion-time quota lookups. -/

/-- Joining a nonempty name onto a root path yields a path with that name as
a suffix. -/
theorem pathJoin_suffix (a b : String) (hb : b ≠ "") :
    ∃ pre, pathJoin a b = pre ++ b := by
  unfold pathJoin
  by_cases h : a = ""
  · rw [if_pos h]
    refine ⟨"", ?_⟩
    apply stringDataInj
    simp [String.data_append, show ("" : String).data = [] from rfl]
  · rw [if_neg h, if_neg hb]
    exact ⟨a ++ "/", rfl⟩

/-- C8: the scenario-1 request (namespace `team-a`, claim `claim1`, PV
`pv-0001`, size 0) with both policies disabled succeeds whenever the backend
volume creation and the directory creation succeed, returning a record whose
`isilonVolume` annotation is `team-a-claim1-pv-0001` and whose NFS mount
path ends in that name. -/
theorem C8_scenario1 (p : IsilonProvisioner) (b : Backend) (rc : String)
    (hq : p.quotaEnable = false) (hx : p.exportsEnable = false)
    (hc : b.createVolume "team-a-claim1-pv-0001" = .ok rc)
    (hm : b.mkdirAll (pathJoin p.volumePath "team-a-claim1-pv-0001") = .ok ()) :
    ∃ pv tr, provision p b opts8 = (.ok pv, tr) ∧
      pv.annotations.lookup "isilonVolume" = some "team-a-claim1-pv-0001" ∧
      ∃ pre, pv.nfsPath = pre ++ "team-a-claim1-pv-0001" := by
  have hname : volName opts8.pvcNamespace opts8.pvcName opts8.pvName
      = "team-a-claim1-pv-0001" := by decide
  rw [provision_eq_of_ok p b opts8 rc (by rw [hname]; exact hc), hname]
  unfold provisionQuota
  rw [hq]
  simp only [Bool.false_eq_true, if_false, ite_false]
  unfold provisionExport
  rw [hx]
  simp only [Bool.false_eq_true, if_false, ite_false]
  unfold provisionMkdir
  rw [hm]
  unfold provisionFinish
  refine ⟨_, _, rfl, ?_, pathJoin_suffix p.volumePath "team-a-claim1-pv-0001" (by decide)⟩
  rfl

/-- C8, witness: the all-succeeding backend and the both-flags-off
provisioner. -/
theorem C8_scenario1_witness :
    ∃ pv tr, provision p0 okBackend opts8 = (.ok pv, tr) ∧
      pv.annotations.lookup "isilonVolume" = some "team-a-claim1-pv-0001" ∧
      ∃ pre, pv.nfsPath = pre ++ "team-a-claim1-pv-0001" :=
  C8_scenario1 p0 okBackend "team-a-claim1-pv-0001" rfl rfl rfl rfl

/-- A backend whose quota lookup fails. -/
def bq10 : Backend := { okBackend with getQuota := fun _ => .error "boom" }

/-- A deletion whose record is owned and carries a volume name reduces to
the quota-teardown stage. -/
theorem delete_eq_step (p : IsilonProvisioner) (b : Backend) (vol : PersistentVolume)
    (v : String)
    (hid : vol.annotations.lookup "isilonProvisionerIdentity" = some p.identity)
    (hv : vol.annotations.lookup "isilonVolume" = some v) :
    delete p b vol = deleteQuotaStep p b v [] := by
  unfold delete
  rw [hid]
  simp only [ne_eq, not_true_eq_false, ite_false, if_false]
  rw [hv]

/-- C10: on an owned record with quotas enabled, an error from `GetQuota` is
silently discarded: the deletion behaves exactly as if the volume had no
quota (so it proceeds to the unexport and volume-delete stages), and no
`ClearQuota` call is ever recorded. -/
theorem C10_getQuota_error_discarded (p : IsilonProvisioner) (b : Backend)
    (vol : PersistentVolume) (v e : String)
    (hq : p.quotaEnable = true)
    (hid : vol.annotations.lookup "isilonProvisionerIdentity" = some p.identity)
    (hv : vol.annotations.lookup "isilonVolume" = some v)
    (hg : b.getQuota v = .error e) :
    delete p b vol = delete p { b with getQuota := fun _ => .ok none } vol ∧
    ∀ n, Call.clearQuota n ∉ (delete p b vol).snd := by
  have hred : delete p b vol = deleteExportStep p b v [Call.getQuota v] := by
    rw [delete_eq_step p b vol v hid hv]
    unfold deleteQuotaStep
    rw [hq, hg]
    rfl
  have hred' : delete p { b with getQuota := fun _ => .ok none } vol
      = deleteExportStep p b v [Call.getQuota v] := by
    rw [delete_eq_step p { b with getQuota := fun _ => .ok none } vol v hid hv]
    unfold deleteQuotaStep
    rw [hq]
    rfl
  refine ⟨hred.trans hred'.symm, ?_⟩
  intro n hn
  rw [hred] at hn
  rcases deleteExportStep_snd_mem p b v _ _ hn with h1 | h1 | h1 <;> simp_all

/-- C10, witness: the failing-quota-lookup backend on the owned fixture. -/
theorem C10_getQuota_error_discarded_witness :
    (delete pQuota bq10 vol0
      = delete pQuota { bq10 with getQuota := fun _ => .ok none } vol0) ∧
    ∀ n, Call.clearQuota n ∉ (delete pQuota bq10 vol0).snd :=
  C10_getQuota_error_discarded pQuota bq10 vol0 "team-a-claim1-pv-0001" "boom"
    rfl rfl rfl rfl

/-! Identity tagging. -/

/-- Rewrite an annotation entry to a new identity when it is the ownership
tag, leaving other entries unchanged. -/
def retagEntry (i : String) (kv : String × String) : String × String :=
  if kv.fst = "isilonProvisionerIdentity" then (kv.fst, i) else kv

/-- Rewrite the ownership-tag annotation of a record to a new identity,
leaving every other field and annotation unchanged. -/
def retag (i : String) (pv : PersistentVolume) : PersistentVolume :=
  { pv with annotations := pv.annotations.map (retagEntry i) }

/-- A successfully assembled record carries exactly the ownership tag and
the backend-volume annotation. -/
theorem provisionFinish_ok_ann (p : IsilonProvisioner) (options : VolumeOptions)
    (nm pvPath : String) (t : List Call) (pv : PersistentVolume) (tr : List Call)
    (h : provisionFinish p options nm pvPath t = (.ok pv, tr)) :
    pv.annotations = [("isilonProvisionerIdentity", p.identity), ("isilonVolume", nm)] := by
  unfold provisionFinish at h
  split at h
  · simp at h
  · simp only [Prod.mk.injEq, Outcome.ok.injEq] at h
    rw [← h.1]

/-- The mkdir stage preserves the annotation shape of a success. -/
theorem provisionMkdir_ok_ann (p : IsilonProvisioner) (b : Backend)
    (options : VolumeOptions) (nm pvPath : String) (t : List Call)
    (pv : PersistentVolume) (tr : List Call)
    (h : provisionMkdir p b options nm pvPath t = (.ok pv, tr)) :
    pv.annotations = [("isilonProvisionerIdentity", p.identity), ("isilonVolume", nm)] := by
  unfold provisionMkdir at h
  split at h
  · simp at h
  · exact provisionFinish_ok_ann _ _ _ _ _ _ _ h

/-- The export stage preserves the annotation shape of a success. -/
theorem provisionExport_ok_ann (p : IsilonProvisioner) (b : Backend)
    (options : VolumeOptions) (nm pvPath : String) (t : List Call)
    (pv : PersistentVolume) (tr : List Call)
    (h : provisionExport p b options nm pvPath t = (.ok pv, tr)) :
    pv.annotations = [("isilonProvisionerIdentity", p.identity), ("isilonVolume", nm)] := by
  unfold provisionExport at h
  split at h
  · split at h
    · simp at h
    · exact provisionMkdir_ok_ann _ _ _ _ _ _ _ _ h
  · exact provisionMkdir_ok_ann _ _ _ _ _ _ _ _ h

/-- The quota stage preserves the annotation shape of a success. -/
theorem provisionQuota_ok_ann (p : IsilonProvisioner) (b : Backend)
    (options : VolumeOptions) (nm pvPath : String) (t : List Call)
    (pv : PersistentVolume) (tr : List Call)
    (h : provisionQuota p b options nm pvPath t = (.ok pv, tr)) :
    pv.annotations = [("isilonProvisionerIdentity", p.identity), ("isilonVolume", nm)] := by
  unfold provisionQuota at h
  split at h
  · split at h
    · simp at h
    · exact provisionExport_ok_ann _ _ _ _ _ _ _ _ h
  · exact provisionExport_ok_ann _ _ _ _ _ _ _ _ h

/-- Every record returned by a successful `Provision` call carries exactly
the ownership tag and the computed backend-volume annotation. -/
theorem provision_ok_ann (p : IsilonProvisioner) (b : Backend)
    (options : VolumeOptions) (pv : PersistentVolume) (tr : List Call)
    (h : provision p b options = (.ok pv, tr)) :
    pv.annotations = [("isilonProvisionerIdentity", p.identity),
      ("isilonVolume", volName options.pvcNamespace options.pvcName options.pvName)] := by
  simp only [provision] at h
  split at h
  · simp at h
  · exact provisionQuota_ok_ann _ _ _ _ _ _ _ _ h

/-- Changing the identity only retags the final record. -/
theorem provisionFinish_retag (p : IsilonProvisioner) (options : VolumeOptions)
    (nm pvPath : String) (t : List Call) (i : String) :
    provisionFinish { p with identity := i } options nm pvPath t
      = ((provisionFinish p options nm pvPath t).fst.map (retag i),
         (provisionFinish p options nm pvPath t).snd) := by
  have hne : ("isilonVolume" : String) ≠ "isilonProvisionerIdentity" := by decide
  unfold provisionFinish
  cases hgm : getMountOptions options.parameters [] with
  | error e => simp [Outcome.map]
  | ok mo => simp [Outcome.map, retag, retagEntry, hne]

/-- Changing the identity commutes with the mkdir stage, up to retagging. -/
theorem provisionMkdir_retag (p : IsilonProvisioner) (b : Backend)
    (options : VolumeOptions) (nm pvPath : String) (t : List Call) (i : String) :
    provisionMkdir { p with identity := i } b options nm pvPath t
      = ((provisionMkdir p b options nm pvPath t).fst.map (retag i),
         (provisionMkdir p b options nm pvPath t).snd) := by
  unfold provisionMkdir
  cases hm : b.mkdirAll pvPath with
  | error e => simp [Outcome.map]
  | ok u => exact provisionFinish_retag p options nm pvPath (t ++ [Call.mkdirAll pvPath]) i

/-- Changing the identity commutes with the export stage, up to retagging. -/
theorem provisionExport_retag (p : IsilonProvisioner) (b : Backend)
    (options : VolumeOptions) (nm pvPath : String) (t : List Call) (i : String) :
    provisionExport { p with identity := i } b options nm pvPath t
      = ((provisionExport p b options nm pvPath t).fst.map (retag i),
         (provisionExport p b options nm pvPath t).snd) := by
  unfold provisionExport
  dsimp only
  cases hxe : p.exportsEnable with
  | false => simpa using provisionMkdir_retag p b options nm pvPath t i
  | true =>
    cases hex : b.exportVolume nm with
    | error e => simp [Outcome.map]
    | ok eh =>
      simpa using provisionMkdir_retag p b options nm pvPath (t ++ [Call.exportVolume nm]) i

/-- Changing the identity commutes with the quota stage, up to retagging. -/
theorem provisionQuota_retag (p : IsilonProvisioner) (b : Backend)
    (options : VolumeOptions) (nm pvPath : String) (t : List Call) (i : String) :
    provisionQuota { p with identity := i } b options nm pvPath t
      = ((provisionQuota p b options nm pvPath t).fst.map (retag i),
         (provisionQuota p b options nm pvPath t).snd) := by
  unfold provisionQuota
  dsimp only
  cases hqe : p.quotaEnable with
  | false => simpa using provisionExport_retag p b options nm pvPath t i
  | true =>
    by_cases hs : options.pvcSize ≤ 0
    · simp [hs, Outcome.map]
    · simpa [hs] using provisionExport_retag p b options nm pvPath
        (t ++ [Call.setQuotaSize nm options.pvcSize]) i

/-- Changing the identity changes a `Provision` run only by retagging the
returned record: same error or panic otherwise, same backend calls. -/
theorem provision_retag (p : IsilonProvisioner) (b : Backend)
    (options : VolumeOptions) (i : String) :
    provision { p with identity := i } b options
      = ((provision p b options).fst.map (retag i), (provision p b options).snd) := by
  unfold provision
  dsimp only
  cases hc : b.createVolume (volName options.pvcNamespace options.pvcName options.pvName) with
  | error e => simp [Outcome.map]
  | ok rc =>
    simpa using provisionQuota_retag p b options
      (volName options.pvcNamespace options.pvcName options.pvName)
      (pathJoin p.volumePath (volName options.pvcNamespace options.pvcName options.pvName))
      [Call.createVolume (volName options.pvcNamespace options.pvcName options.pvName)] i

/-- C9: every record returned by a successful `Provision` carries the active
identity as its ownership tag and the computed volume name as its
backend-volume annotation (first conjunct); the identity is only written as
that creation-time tag — changing it changes a `Provision` run only by
retagging the returned record (second conjunct) — and is only read as a
comparison during `Delete` — two identities that compare equally against the
record's tag give identical `Delete` runs (third conjunct). -/
theorem C9_identity_tagging (p : IsilonProvisioner) (b : Backend) (options : VolumeOptions) :
    (∀ pv tr, provision p b options = (.ok pv, tr) →
      pv.annotations.lookup "isilonProvisionerIdentity" = some p.identity ∧
      pv.annotations.lookup "isilonVolume"
        = some (volName options.pvcNamespace options.pvcName options.pvName)) ∧
    (∀ i, provision { p with identity := i } b options
      = ((provision p b options).fst.map (retag i), (provision p b options).snd)) ∧
    (∀ i vol, (∀ a, vol.annotations.lookup "isilonProvisionerIdentity" = some a →
        ((a = p.identity) ↔ (a = i))) →
      delete { p with identity := i } b vol = delete p b vol) := by
  refine ⟨?_, fun i => provision_retag p b options i, ?_⟩
  · intro pv tr h
    rw [provision_ok_ann p b options pv tr h]
    exact ⟨rfl, rfl⟩
  · intro i vol hiff
    unfold delete
    cases hla : vol.annotations.lookup "isilonProvisionerIdentity" with
    | none => rfl
    | some a =>
      dsimp only
      by_cases hpa : a = p.identity
      · have hai : a = i := (hiff a hla).mp hpa
        rw [if_neg (not_not_intro hai), if_neg (not_not_intro hpa)]
        rfl
      · have hai : a ≠ i := fun h => hpa ((hiff a hla).mpr h)
        rw [if_pos hai, if_pos hpa]

/-- The record produced by the scenario-1 run. -/
def pv8 : PersistentVolume where
  name := "pv-0001"
  annotations := [("isilonProvisionerIdentity", "server-x"),
                  ("isilonVolume", "team-a-claim1-pv-0001")]
  capacity := 0
  mountOptions := []
  nfsServer := "server-x"
  nfsPath := "/ifs/data/team-a-claim1-pv-0001"
  reclaimPolicy := "Delete"
  accessModes := ["ReadWriteMany"]

/-- The backend calls recorded by the scenario-1 run. -/
def tr8 : List Call :=
  [Call.createVolume "team-a-claim1-pv-0001", Call.mkdirAll "/ifs/data/team-a-claim1-pv-0001"]

/-- C9, witness: the annotations of the concrete scenario-1 record. -/
theorem C9_identity_tagging_witness :
    pv8.annotations.lookup "isilonProvisionerIdentity" = some p0.identity ∧
    pv8.annotations.lookup "isilonVolume"
      = some (volName opts8.pvcNamespace opts8.pvcName opts8.pvName) :=
  (C9_identity_tagging p0 okBackend opts8).1 pv8 tr8 (by decide)
